import Mathlib

set_option maxHeartbeats 1000000

/-! Shallow embedding of the aging-map projection-and-risk-scoring pipeline.

The definitions below translate the computational core of the repository's
Python scripts (process_closure_risk.py, process_cooper_center.py,
process_data.py, process_school_data.py) into Lean.  Python floats are
modelled as exact rationals; Python dicts keyed by year or by (fips, year)
are modelled as association lists or as total functions with an explicit
default, matching the defaultdict / dict.get semantics of the source.
Display rounding (round(x, k) on values written to JSON) is omitted
throughout; it is applied by the source only when storing results. -/

namespace AgingMap

namespace ClosureRisk

/-- Annual closure probabilities, CLOSURE_PROBS in process_closure_risk.py
lines 128-135, as exact rationals. -/
def probLargeStable : ℚ := 0.0075

/-- CLOSURE_PROBS mild_decline, 3-10 percent decline. -/
def probMildDecline : ℚ := 0.010

/-- CLOSURE_PROBS medium_decline, more than 10 percent decline. -/
def probMediumDecline : ℚ := 0.015

/-- CLOSURE_PROBS small_steep, 100-199 projected enrollment with steep decline. -/
def probSmallSteep : ℚ := 0.03

/-- CLOSURE_PROBS tiny, under 100 projected enrollment. -/
def probTiny : ℚ := 0.04

/-- Python range(start, stop) over integers, as a list. -/
def intRange (start stop : Int) : List Int :=
  (List.range (stop - start).toNat).map (fun i : ℕ => start + (i : Int))

/-- The birth cohorts enrolled in K-12 in a given target year:
range(target_year - 17, target_year - 5 + 1) in compute_enrollment_decline,
process_closure_risk.py lines 442-449. -/
def enrolledBirthYears (target : Int) : List Int :=
  intRange (target - 17) ((target - 5) + 1)

/-- One iteration of the cohort loop of compute_enrollment_decline (lines
449-454): cohorts born after 2022 are counted and their birth-decline
percentage accumulated.  The accumulator is (post_2022_grades,
total_birth_decline). -/
def declineStep (traj : Int → ℚ) (acc : ℕ × ℚ) (birthYear : Int) : ℕ × ℚ :=
  if birthYear > 2022 then (acc.1 + 1, acc.2 + traj birthYear) else acc

/-- The four quantities computed per target year by
compute_enrollment_decline. -/
structure DeclineResult where
  post2022Grades : ℕ
  avgBirthDecline : ℚ
  post2022Fraction : ℚ
  enrollmentDeclinePct : ℚ
deriving DecidableEq

/-- compute_enrollment_decline for one target year (process_closure_risk.py
lines 439-469).  `traj` models the per-birth-year lookup
scenario_data.get(birth_year, ...).get(..., 0): a total function with the
source's default 0 for missing years. -/
def computeEnrollmentDecline (traj : Int → ℚ) (target : Int) : DeclineResult :=
  let totalGrades : ℕ := 13
  let acc := (enrolledBirthYears target).foldl (declineStep traj) (0, 0)
  let post := acc.1
  let avg : ℚ := if post > 0 then acc.2 / (post : ℚ) else 0
  let frac : ℚ := (post : ℚ) / (totalGrades : ℚ)
  ⟨post, avg, frac, frac * avg⟩

/-- One institution-size bucket: institution count and representative average
enrollment (estimate_closures, process_closure_risk.py lines 503-518). -/
structure Bucket where
  count : ℕ
  avgEnr : ℚ
deriving DecidableEq

/-- The annual-closure-probability branch chain of estimate_closures
(process_closure_risk.py lines 548-563), factored out of the loop body: given
the post-decline projected bucket size and the decline ratio, the first
matching condition selects the probability. -/
def annualProb (projectedEnr ratio : ℚ) : ℚ :=
  if projectedEnr < 100 then probTiny
  else if projectedEnr < 200 ∧ ratio > 0.25 then probSmallSteep
  else if ratio > 0.10 then probMediumDecline
  else if ratio > 0.03 then probMildDecline
  else probLargeStable

/-- years_from_2025 = max(target_year - 2025, 1), process_closure_risk.py
line 534, as a natural exponent. -/
def yearsFrom2025 (target : Int) : ℕ := (max (target - 2025) 1).toNat

/-- The body of the per-bucket loop of estimate_closures (lines 540-567).
State is (expected_closures, risk_elevated, risk_severe).  Buckets with a
zero count are skipped; otherwise the projected size is
avg_enrollment * (1 - decline_ratio), one branch of the chain picks the
annual probability and bumps the elevated/severe tallies, and
count * (1 - (1 - annual_prob) ^ years) is added to expected closures. -/
def closureStep (ratio : ℚ) (years : ℕ) (st : ℚ × ℕ × ℕ) (b : Bucket) :
    ℚ × ℕ × ℕ :=
  if b.count = 0 then st else
  let projected := b.avgEnr * (1 - ratio)
  let sel : ℚ × ℕ × ℕ :=
    if projected < 100 then (probTiny, st.2.1 + b.count, st.2.2 + b.count)
    else if projected < 200 ∧ ratio > 0.25 then
      (probSmallSteep, st.2.1 + b.count, st.2.2 + b.count)
    else if ratio > 0.10 then (probMediumDecline, st.2.1 + b.count, st.2.2)
    else if ratio > 0.03 then (probMildDecline, st.2.1 + b.count, st.2.2)
    else (probLargeStable, st.2.1, st.2.2)
  let cum := 1 - (1 - sel.1) ^ years
  (st.1 + (b.count : ℚ) * cum, sel.2.1, sel.2.2)

/-- The per-scenario, per-target-year computation of estimate_closures over
the ordered bucket list (under100, 100_199, 200_299, 300_499, 500plus):
returns (expected_closures, schools_elevated_risk, schools_severe_risk). -/
def estimateClosures (ratio : ℚ) (years : ℕ) (buckets : List Bucket) :
    ℚ × ℕ × ℕ :=
  buckets.foldl (closureStep ratio years) (0, 0, 0)

/-- Evaluate an ordered closure-probability rule table: the first rule whose
condition holds for (projected size, decline ratio) assigns the probability,
the default applies when none matches. -/
def firstMatch (rules : List ((ℚ → ℚ → Bool) × ℚ)) (dflt projected ratio : ℚ) :
    ℚ :=
  match rules with
  | [] => dflt
  | (p, pr) :: rest =>
      if p projected ratio then pr else firstMatch rest dflt projected ratio

/-- The fixed ordered rule table of estimate_closures, written as the spec
reads it: most specific rule first, background rate as the default. -/
def closureRules : List ((ℚ → ℚ → Bool) × ℚ) :=
  [ (fun projected _ => projected < 100, probTiny),
    (fun projected ratio => projected < 200 && ratio > 0.25, probSmallSteep),
    (fun _ ratio => ratio > 0.10, probMediumDecline),
    (fun _ ratio => ratio > 0.03, probMildDecline) ]

/-- Per-state aggregate of process_ccd_schools (process_closure_risk.py
lines 253-287): school count, total enrollment and the five size-bucket
counts. -/
structure StateCounts where
  totalSchools : ℕ
  totalEnrollment : ℚ
  bUnder100 : ℕ
  b100to199 : ℕ
  b200to299 : ℕ
  b300to499 : ℕ
  b500plus : ℕ
deriving DecidableEq

/-- The zero-initialised state record (lines 262-271). -/
def StateCounts.zero : StateCounts := ⟨0, 0, 0, 0, 0, 0, 0⟩

/-- One filtered school's contribution (lines 273-286): bump the total count
and enrollment, and exactly one size bucket chosen by enrollment. -/
def ccdStep (sd : StateCounts) (enrollment : ℚ) : StateCounts :=
  let sd1 := { sd with totalSchools := sd.totalSchools + 1,
                       totalEnrollment := sd.totalEnrollment + enrollment }
  if enrollment < 100 then { sd1 with bUnder100 := sd1.bUnder100 + 1 }
  else if enrollment < 200 then { sd1 with b100to199 := sd1.b100to199 + 1 }
  else if enrollment < 300 then { sd1 with b200to299 := sd1.b200to299 + 1 }
  else if enrollment < 500 then { sd1 with b300to499 := sd1.b300to499 + 1 }
  else { sd1 with b500plus := sd1.b500plus + 1 }

/-- Aggregate one state's filtered school enrollments (lines 255-287). -/
def ccdAggregate (enrollments : List ℚ) : StateCounts :=
  enrollments.foldl ccdStep StateCounts.zero

/-- avg_enrollment for the 500plus bucket (line 517):
max(750, enrollment / max(count, 1)) when the bucket is nonempty. -/
def avg500 (sd : StateCounts) : ℚ :=
  if 0 < sd.b500plus then
    max 750 (sd.totalEnrollment / ((max sd.b500plus 1 : ℕ) : ℚ))
  else 750

/-- The ordered bucket list built by estimate_closures from a state's counts
(lines 503-518), pairing each bucket count with its representative average
enrollment. -/
def bucketsOf (sd : StateCounts) : List Bucket :=
  [⟨sd.bUnder100, 55⟩, ⟨sd.b100to199, 150⟩, ⟨sd.b200to299, 250⟩,
   ⟨sd.b300to499, 400⟩, ⟨sd.b500plus, avg500 sd⟩]

/-- The sum of the five bucket counts of a state record. -/
def StateCounts.bucketSum (sd : StateCounts) : ℕ :=
  sd.bUnder100 + sd.b100to199 + sd.b200to299 + sd.b300to499 + sd.b500plus

end ClosureRisk

namespace CooperCenter

/-- CLOSURE_PROBS large_stable, process_cooper_center.py lines 37-42. -/
def probLargeStable : ℚ := 0.01

/-- CLOSURE_PROBS medium_decline. -/
def probMediumDecline : ℚ := 0.02

/-- CLOSURE_PROBS small_steep. -/
def probSmallSteep : ℚ := 0.05

/-- CLOSURE_PROBS tiny. -/
def probTiny : ℚ := 0.10

/-- The annual-closure-probability branch chain of compute_closures
(process_cooper_center.py lines 93-102), factored out of the loop body. -/
def annualProb (projectedEnr ratio : ℚ) : ℚ :=
  if projectedEnr < 100 then probTiny
  else if projectedEnr < 200 ∧ ratio > 0.25 then probSmallSteep
  else if projectedEnr < 300 ∧ ratio > 0.10 then probMediumDecline
  else if ratio > 0.10 then probMediumDecline
  else probLargeStable

/-- The ordered rule table of compute_closures, as the spec reads it. -/
def cooperRules : List ((ℚ → ℚ → Bool) × ℚ) :=
  [ (fun projected _ => projected < 100, probTiny),
    (fun projected ratio => projected < 200 && ratio > 0.25, probSmallSteep),
    (fun projected ratio => projected < 300 && ratio > 0.10, probMediumDecline),
    (fun _ ratio => ratio > 0.10, probMediumDecline) ]

/-- The per-bucket body of the compute_closures loop (process_cooper_center.py
lines 86-106): skip empty buckets; otherwise project the bucket size, pick
the annual probability and accumulate count * cumulative probability, with
the horizon floored at one year (years = max(years_from_baseline, 1)). -/
def cooperStep (ratio : ℚ) (yearsFromBaseline : Int) (acc : ℚ)
    (b : ClosureRisk.Bucket) : ℚ :=
  if b.count = 0 then acc else
  let projected := b.avgEnr * (1 - ratio)
  let p := annualProb projected ratio
  let years := (max yearsFromBaseline 1).toNat
  acc + (b.count : ℚ) * (1 - (1 - p) ^ years)

/-- compute_closures (process_cooper_center.py lines 75-108). -/
def computeClosures (ratio : ℚ) (yearsFromBaseline : Int)
    (buckets : List ClosureRisk.Bucket) : ℚ :=
  buckets.foldl (cooperStep ratio yearsFromBaseline) 0

/-- The per-year cooper_center scenario computation of main
(process_cooper_center.py lines 160-186): ratio = sa_yr / sa_2020; growing
states (ratio at least 1) get zero expected closures; declining states
invoke compute_closures with decline ratio 1 - ratio and horizon
max(yr - 2025, 1).  Returns (expected_closures, expected_closures_pct). -/
def cooperYear (saYr sa2020 : ℚ) (buckets : List ClosureRisk.Bucket)
    (totalSchools : ℕ) (yr : Int) : ℚ × ℚ :=
  let ratio := saYr / sa2020
  let closures : ℚ :=
    if ratio ≥ 1 then 0
    else computeClosures (1 - ratio) (max (yr - 2025) 1) buckets
  (closures,
   if 0 < totalSchools then closures / (totalSchools : ℚ) * 100 else 0)

end CooperCenter

namespace ProcessData

/-- YEARS, process_data.py line 44. -/
def YEARS : List Int := [2020, 2025, 2030, 2035, 2040, 2045, 2050]

/-- TARGET_YEARS, process_data.py line 45. -/
def TARGET_YEARS : List Int := [2025, 2030, 2035, 2040, 2045, 2050]

/-- STATE_FIPS, process_data.py lines 48-54. -/
def STATE_FIPS : List String :=
  ["01", "02", "04", "05", "06", "08", "09", "10", "11", "12",
   "13", "15", "16", "17", "18", "19", "20", "21", "22", "23",
   "24", "25", "26", "27", "28", "29", "30", "31", "32", "33",
   "34", "35", "36", "37", "38", "39", "40", "41", "42", "44",
   "45", "46", "47", "48", "49", "50", "51", "53", "54", "55", "56"]

/-- Python str.strip() for the plain ASCII fields in the data: drop
whitespace characters from both ends, implemented structurally over the
character list. -/
def pyStrip (s : String) : String :=
  String.mk
    ((((s.data.dropWhile (fun c => c.isWhitespace)).reverse.dropWhile
        (fun c => c.isWhitespace)).reverse))

/-- Parse an unsigned run of decimal digits (the whole list must be
digits). -/
def parseDigits : List Char → ℕ → Option ℕ
  | [], acc => some acc
  | c :: cs, acc =>
      if c.isDigit then parseDigits cs (acc * 10 + (c.toNat - 48)) else none

/-- Python int(...) restricted to optionally signed decimal digit strings:
returns none exactly where int() raises ValueError on such inputs. -/
def parseInt (s : String) : Option Int :=
  match s.data with
  | [] => none
  | c :: cs =>
      if c = '-' then
        match cs with
        | [] => none
        | _ => (parseDigits cs 0).map (fun n => -(n : Int))
      else (parseDigits (c :: cs) 0).map (fun n => (n : Int))

/-- Python str.zfill(n) for the unsigned digit strings in the data: left-pad
with the zero character to length n. -/
def zfill (n : ℕ) (s : String) : String :=
  if n ≤ s.length then s
  else String.mk (List.replicate (n - s.length) '0') ++ s

/-- One parsed Hauer CSV row: YEAR, STATE, COUNTY, AGE and the SSP2 value
column (process_data.py lines 245-276). -/
structure Row where
  year : Int
  state : String
  county : String
  age : Int
  value : ℚ
deriving DecidableEq

/-- One (fips, year) accumulator of process_hauer (line 252): total, 65plus
and 85plus sums. -/
structure Agg where
  total : ℚ
  p65 : ℚ
  p85 : ℚ
deriving DecidableEq

/-- The defaultdict initial value. -/
def Agg.zero : Agg := ⟨0, 0, 0⟩

/-- county_data keys: (5-digit fips, year). -/
abbrev Key := String × Int

/-- The two continue-filters of the process_hauer row loop (lines 266-272):
the year must be a projection year and the state a known FIPS code. -/
def keepRow (r : Row) : Prop :=
  (r.year ∈ YEARS ∨ r.year = 2020) ∧ zfill 2 (pyStrip r.state) ∈ STATE_FIPS

instance : DecidablePred keepRow := fun r => by
  unfold keepRow
  infer_instance

/-- The county_data key a row contributes to (line 274). -/
def rowKey (r : Row) : Key :=
  (zfill 2 (pyStrip r.state) ++ zfill 3 (pyStrip r.county), r.year)

/-- One row's contribution to its accumulator (lines 278-282): the value is
always added to the total, and to the 65plus / 85plus subtotals when the
age-group index is at least 14 / 18. -/
def addRow (r : Row) (a : Agg) : Agg :=
  { total := a.total + r.value,
    p65 := a.p65 + (if r.age ≥ 14 then r.value else 0),
    p85 := a.p85 + (if r.age ≥ 18 then r.value else 0) }

/-- One iteration of the process_hauer row loop over the accumulator table
(lines 260-282), with the table as a total function defaulting to zero. -/
def hauerStep (m : Key → Agg) (r : Row) : Key → Agg :=
  if keepRow r then
    fun k => if k = rowKey r then addRow r (m k) else m k
  else m

/-- The streaming aggregation of process_hauer (lines 252-284). -/
def processHauer (rows : List Row) : Key → Agg :=
  rows.foldl hauerStep (fun _ => Agg.zero)

/-- years_data[y]: association-list lookup on a year series. -/
def lookupYear (s : List (Int × ℚ)) (y : Int) : Option ℚ :=
  (s.find? (fun p => p.1 = y)).map Prod.snd

/-- The per-target-year resampling of process_hauer (lines 299-324), on one
value channel (the source applies the identical selection and interpolation
formula to each of the three aggregate components).  A known target year is
returned as is; otherwise y1 is the last (largest) known year at most the
target and y2 the first (smallest) known year at least the target — the
source takes them as the last and first elements of the sorted key list —
and the value is linearly interpolated between them, or held flat at the one
that exists; a target with no known years at all yields nothing (the
source's bare `continue`). -/
def resampleBounded (s : List (Int × ℚ)) (target : Int) : Option ℚ :=
  match lookupYear s target with
  | some v => some v
  | none =>
    let avail := s.map Prod.fst
    let before := avail.filter (fun y => y ≤ target)
    let after := avail.filter (fun y => target ≤ y)
    match before.max?, after.min? with
    | some y1, some y2 =>
      if y1 = y2 then lookupYear s y1
      else
        match lookupYear s y1, lookupYear s y2 with
        | some v1, some v2 =>
            some (v1 + ((target : ℚ) - (y1 : ℚ)) / ((y2 : ℚ) - (y1 : ℚ)) * (v2 - v1))
        | _, _ => none
    | some y1, none => lookupYear s y1
    | none, some y2 => lookupYear s y2
    | none, none => none

/-- The years of one county's output entry (process_hauer lines 294-336):
each target year's resampled value, kept only when the resampler produced
one and it is positive (the `if total > 0` guard at line 329). -/
def hauerEntryYears (yearsData : List (Int × ℚ)) : List (Int × ℚ) :=
  TARGET_YEARS.filterMap (fun t =>
    (resampleBounded yearsData t).bind
      (fun v => if 0 < v then some (t, v) else none))

/-- The hauer_data output table (lines 291-339): one entry per county whose
resampled year list is nonempty; a county with no resolvable years is
silently omitted — the source raises nothing and records nothing for it. -/
def hauerOutput (counties : List (String × List (Int × ℚ))) :
    List (String × List (Int × ℚ)) :=
  counties.filterMap (fun c =>
    if hauerEntryYears c.2 = [] then none else some (c.1, hauerEntryYears c.2))

/-- One raw CSV row as the DictReader hands it to the loop: the five string
fields after row.get(key, default) (process_data.py lines 265-276). -/
structure RawRow where
  yearS : String
  stateS : String
  countyS : String
  ageS : String
  ssp2S : String
deriving DecidableEq

/-- Python float(...) restricted to the plain decimal literals occurring in
the data: an optionally signed integer part and an optional fractional digit
part.  Returns none exactly where Python float() raises ValueError on such
inputs (scientific notation, inf/nan and exotic spellings are outside the
modelled input language). -/
def parseRat (s : String) : Option ℚ :=
  let intPart := s.data.takeWhile (fun c => ¬ c = '.')
  let rest := s.data.dropWhile (fun c => ¬ c = '.')
  match rest with
  | [] => (parseInt (String.mk intPart)).map (fun n => (n : ℚ))
  | _ :: fracPart =>
      if fracPart.contains '.' then none
      else
        match parseInt (String.mk intPart), parseDigits fracPart 0 with
        | some n, some fr =>
            let frq : ℚ := (fr : ℚ) / (10 : ℚ) ^ fracPart.length
            some (if intPart.headD ' ' = '-' then (n : ℚ) - frq
                  else (n : ℚ) + frq)
        | _, _ => none

/-- One iteration of the process_hauer row loop at the raw-string level
(lines 265-282).  int(...) and float(...) failures are uncaught in the
source and abort the whole aggregation; they surface here as Except.error
carrying the offending row.  The year and state filters run between the
parses, in source order, so a malformed AGE or SSP2 field in a filtered-out
row is never reached. -/
def hauerStepRaw (m : Key → Agg) (r : RawRow) : Except RawRow (Key → Agg) :=
  match parseInt r.yearS with
  | none => .error r
  | some year =>
    if year ∈ YEARS ∨ year = 2020 then
      if zfill 2 (pyStrip r.stateS) ∈ STATE_FIPS then
        match parseInt r.ageS, parseRat r.ssp2S with
        | some age, some value =>
            .ok (hauerStep m ⟨year, r.stateS, r.countyS, age, value⟩)
        | _, _ => .error r
      else .ok m
    else .ok m

/-- The raw-row loop of process_hauer: run the per-row step until the rows
are exhausted or an uncaught parse exception aborts the run. -/
def runRaw (m : Key → Agg) : List RawRow → Except RawRow (Key → Agg)
  | [] => .ok m
  | r :: rest =>
    match hauerStepRaw m r with
    | .ok m2 => runRaw m2 rest
    | .error e => .error e

/-- process_hauer at the raw-string level (lines 252-284). -/
def processHauerRaw (rows : List RawRow) : Except RawRow (Key → Agg) :=
  runRaw (fun _ => Agg.zero) rows

end ProcessData

namespace SchoolData

/-- YEARS, process_school_data.py line 46. -/
def YEARS : List Int := [2025, 2030, 2035, 2040, 2045, 2050]

/-- One (fips, year) accumulator of process_hauer_school_age (line 187):
total and school-age sums. -/
structure SchoolAgg where
  total : ℚ
  schoolAge : ℚ
deriving DecidableEq

/-- The defaultdict initial value. -/
def SchoolAgg.zero : SchoolAgg := ⟨0, 0⟩

/-- The two continue-filters of the process_hauer_school_age row loop
(lines 200-206): year in [2020] + YEARS, state a known FIPS code. -/
def keepSchoolRow (r : ProcessData.Row) : Prop :=
  r.year ∈ (2020 :: YEARS) ∧
    ProcessData.zfill 2 (ProcessData.pyStrip r.state) ∈ ProcessData.STATE_FIPS

instance : DecidablePred keepSchoolRow := fun r => by
  unfold keepSchoolRow
  infer_instance

/-- One row's contribution (lines 213-216): the value always joins the
total, and the school-age subtotal when the age group is 2, 3 or 4. -/
def addSchoolRow (r : ProcessData.Row) (a : SchoolAgg) : SchoolAgg :=
  { total := a.total + r.value,
    schoolAge := a.schoolAge +
      (if r.age = 2 ∨ r.age = 3 ∨ r.age = 4 then r.value else 0) }

/-- One iteration of the process_hauer_school_age row loop (lines 195-216). -/
def schoolStep (m : ProcessData.Key → SchoolAgg) (r : ProcessData.Row) :
    ProcessData.Key → SchoolAgg :=
  if keepSchoolRow r then
    fun k => if k = ProcessData.rowKey r then addSchoolRow r (m k) else m k
  else m

/-- The streaming aggregation of process_hauer_school_age (lines 187-218). -/
def processHauerSchoolAge (rows : List ProcessData.Row) :
    ProcessData.Key → SchoolAgg :=
  rows.foldl schoolStep (fun _ => SchoolAgg.zero)

/-- combined_ratio = demo_ratio * tps_mult (assemble_risk_data,
process_school_data.py line 584): the product of the two surviving
fractions for the same county and year. -/
def combinedRatio (demoRatio tpsMult : ℚ) : ℚ := demoRatio * tpsMult

/-- The decline fraction a surviving fraction implies (line 593 computes
decline_pct = (1 - combined_ratio) * 100; here as a fraction). -/
def declineOfSurvival (s : ℚ) : ℚ := 1 - s

/-- The composite decline of two independent decline fractions, composed as
the source composes them: multiply the surviving fractions and read off the
implied decline. -/
def compositeDecline (a b : ℚ) : ℚ :=
  declineOfSurvival (combinedRatio (1 - a) (1 - b))

/-- The five per-county school counters of the tier loop (lines 588-605). -/
structure Tier where
  green : ℕ
  yellow : ℕ
  orange : ℕ
  red : ℕ
  below : ℕ
deriving DecidableEq

/-- The zero-initialised counters (line 588). -/
def Tier.zero : Tier := ⟨0, 0, 0, 0, 0⟩

/-- The per-school body of the tier loop of assemble_risk_data (lines
590-605): classify the school by the county's decline percentage and count
projected enrollments under the viability floor of 100. -/
def tierStep (combined : ℚ) (tc : Tier) (enrollment : ℚ) : Tier :=
  let projEnroll := enrollment * combined
  let declinePct := (1 - combined) * 100
  let tc1 :=
    if declinePct < 10 then { tc with green := tc.green + 1 }
    else if declinePct < 25 then { tc with yellow := tc.yellow + 1 }
    else if declinePct < 50 then { tc with orange := tc.orange + 1 }
    else { tc with red := tc.red + 1 }
  if projEnroll < 100 then { tc1 with below := tc1.below + 1 } else tc1

/-- The tier counters for one county, scenario and year (lines 588-605). -/
def tierCounts (enrollments : List ℚ) (combined : ℚ) : Tier :=
  enrollments.foldl (tierStep combined) Tier.zero

end SchoolData

namespace ClosureRisk

theorem declineStep_foldl (traj : Int → ℚ) (l : List Int) (n : ℕ) (q : ℚ) :
    l.foldl (declineStep traj) (n, q) =
      (n + (l.filter (fun y => 2022 < y)).length,
       q + ((l.filter (fun y => 2022 < y)).map traj).sum) := by
  induction l generalizing n q with
  | nil => simp
  | cons y t ih =>
      simp only [List.foldl_cons, declineStep, List.filter_cons, decide_eq_true_eq]
      by_cases h : 2022 < y
      · rw [if_pos h, if_pos h, ih]
        simp only [List.length_cons, List.map_cons, List.sum_cons, Prod.mk.injEq]
        constructor
        · omega
        · ring
      · rw [if_neg h, if_neg h]
        exact ih n q

theorem mem_enrolledBirthYears (target y : Int) :
    y ∈ enrolledBirthYears target ↔ target - 17 ≤ y ∧ y ≤ target - 5 := by
  unfold enrolledBirthYears intRange
  have h13 : ((target - 5) + 1 - (target - 17)) = (13 : Int) := by ring
  rw [h13]
  constructor
  · intro hy
    rcases List.mem_map.mp hy with ⟨i, hi, hEq⟩
    rw [List.mem_range] at hi
    have h13n : (13 : Int).toNat = 13 := rfl
    rw [h13n] at hi
    omega
  · rintro ⟨h1, h2⟩
    refine List.mem_map.mpr ⟨(y - (target - 17)).toNat, ?_, ?_⟩
    · rw [List.mem_range]
      omega
    · omega

theorem computeEnrollmentDecline_spec (traj : Int → ℚ) (target : Int) :
    (computeEnrollmentDecline traj target).post2022Grades =
        ((enrolledBirthYears target).filter (fun y => 2022 < y)).length ∧
    (computeEnrollmentDecline traj target).avgBirthDecline =
        (if 0 < ((enrolledBirthYears target).filter (fun y => 2022 < y)).length then
          (((enrolledBirthYears target).filter (fun y => 2022 < y)).map traj).sum /
            (((enrolledBirthYears target).filter (fun y => 2022 < y)).length : ℚ)
        else 0) ∧
    (computeEnrollmentDecline traj target).post2022Fraction =
        (((enrolledBirthYears target).filter (fun y => 2022 < y)).length : ℚ) / 13 ∧
    (computeEnrollmentDecline traj target).enrollmentDeclinePct =
        (computeEnrollmentDecline traj target).post2022Fraction *
          (computeEnrollmentDecline traj target).avgBirthDecline := by
  unfold computeEnrollmentDecline
  rw [declineStep_foldl]
  simp

theorem affected_2025 :
    ((enrolledBirthYears 2025).filter (fun y => 2022 < y)).length = 0 := by
  decide

theorem affected_2040 :
    ((enrolledBirthYears 2040).filter (fun y => 2022 < y)).length = 13 := by
  decide

theorem annualProb_eq_firstMatch (projected ratio : ℚ) :
    annualProb projected ratio =
      firstMatch closureRules probLargeStable projected ratio := by
  by_cases h1 : projected < 100 <;>
    by_cases h2 : projected < 200 ∧ ratio > 0.25 <;>
      by_cases h3 : ratio > 0.10 <;>
        by_cases h4 : ratio > 0.03 <;>
          simp [annualProb, closureRules, firstMatch, h1, h2, h3, h4]

/-- The probability selected inside closureStep is annualProb of the
projected size. -/
theorem closureStep_sel (ratio : ℚ) (years : ℕ) (st : ℚ × ℕ × ℕ) (b : Bucket) :
    closureStep ratio years st b =
      if b.count = 0 then st else
        (st.1 + (b.count : ℚ) *
            (1 - (1 - annualProb (b.avgEnr * (1 - ratio)) ratio) ^ years),
          (closureStep ratio years st b).2.1,
          (closureStep ratio years st b).2.2) := by
  unfold closureStep annualProb
  by_cases h0 : b.count = 0
  · simp [h0]
  · by_cases h1 : b.avgEnr * (1 - ratio) < 100 <;>
      by_cases h2 : b.avgEnr * (1 - ratio) < 200 ∧ ratio > 0.25 <;>
        by_cases h3 : ratio > 0.10 <;>
          by_cases h4 : ratio > 0.03 <;>
            simp [h0, h1, h2, h3, h4]

/-- Expected closures accumulate as the sum over buckets of
count * (1 - (1 - annual_prob) ^ years). -/
theorem estimateClosures_expected (ratio : ℚ) (years : ℕ) (buckets : List Bucket) :
    (estimateClosures ratio years buckets).1 =
      (buckets.map (fun b => (b.count : ℚ) *
        (1 - (1 - annualProb (b.avgEnr * (1 - ratio)) ratio) ^ years))).sum := by
  unfold estimateClosures
  suffices h : ∀ st : ℚ × ℕ × ℕ,
      (buckets.foldl (closureStep ratio years) st).1 =
        st.1 + (buckets.map (fun b => (b.count : ℚ) *
          (1 - (1 - annualProb (b.avgEnr * (1 - ratio)) ratio) ^ years))).sum by
    rw [h (0, 0, 0)]
    ring
  induction buckets with
  | nil => intro st; simp
  | cons b t ih =>
      intro st
      rw [List.foldl_cons, ih, closureStep_sel]
      by_cases h0 : b.count = 0
      · simp [h0]
      · rw [if_neg h0]
        simp only [List.map_cons, List.sum_cons]
        ring

/-- Per-bucket tally step: severe never outruns elevated, and elevated grows
by at most the bucket count. -/
theorem closureStep_tally (ratio : ℚ) (years : ℕ) (st : ℚ × ℕ × ℕ)
    (b : Bucket) (h : st.2.2 ≤ st.2.1) :
    (closureStep ratio years st b).2.2 ≤ (closureStep ratio years st b).2.1 ∧
      (closureStep ratio years st b).2.1 ≤ st.2.1 + b.count := by
  unfold closureStep
  by_cases h0 : b.count = 0
  · simp [h0]
    exact h
  · rw [if_neg h0]
    by_cases h1 : b.avgEnr * (1 - ratio) < 100 <;>
      by_cases h2 : b.avgEnr * (1 - ratio) < 200 ∧ ratio > 0.25 <;>
        by_cases h3 : ratio > 0.10 <;>
          by_cases h4 : ratio > 0.03 <;>
            simp only [h1, h2, h3, h4, if_true, if_false, ite_true, ite_false,
              if_pos, if_neg, not_false_iff] <;>
            simp <;> omega

/-- Folded tallies: severe at most elevated, elevated at most the starting
elevated plus the total bucket count. -/
theorem estimateClosures_tally (ratio : ℚ) (years : ℕ) (buckets : List Bucket) :
    ∀ st : ℚ × ℕ × ℕ, st.2.2 ≤ st.2.1 →
      (buckets.foldl (closureStep ratio years) st).2.2 ≤
          (buckets.foldl (closureStep ratio years) st).2.1 ∧
        (buckets.foldl (closureStep ratio years) st).2.1 ≤
          st.2.1 + (buckets.map Bucket.count).sum := by
  induction buckets with
  | nil => intro st h; simpa using h
  | cons b t ih =>
      intro st h
      obtain ⟨hs, he⟩ := closureStep_tally ratio years st b h
      obtain ⟨ih1, ih2⟩ := ih (closureStep ratio years st b) hs
      refine ⟨ih1, ?_⟩
      simp only [List.foldl_cons] at ih2 ⊢
      simp only [List.map_cons, List.sum_cons]
      omega

/-- Each filtered school adds one to the school total and one to exactly one
bucket. -/
theorem ccdStep_counts (sd : StateCounts) (e : ℚ) :
    (ccdStep sd e).totalSchools = sd.totalSchools + 1 ∧
      (ccdStep sd e).bucketSum = sd.bucketSum + 1 := by
  unfold ccdStep StateCounts.bucketSum
  split_ifs <;> simp <;> omega

/-- The bucket counts of an aggregated state partition its school total. -/
theorem ccdAggregate_partition (enrollments : List ℚ) :
    (ccdAggregate enrollments).bucketSum =
      (ccdAggregate enrollments).totalSchools := by
  unfold ccdAggregate
  suffices h : ∀ sd : StateCounts,
      (enrollments.foldl ccdStep sd).bucketSum =
          sd.bucketSum + enrollments.length ∧
        (enrollments.foldl ccdStep sd).totalSchools =
          sd.totalSchools + enrollments.length by
    obtain ⟨h1, h2⟩ := h StateCounts.zero
    rw [h1, h2]
    simp [StateCounts.zero, StateCounts.bucketSum]
  induction enrollments with
  | nil => intro sd; simp
  | cons e t ih =>
      intro sd
      obtain ⟨hc1, hc2⟩ := ccdStep_counts sd e
      obtain ⟨ih1, ih2⟩ := ih (ccdStep sd e)
      simp only [List.foldl_cons, List.length_cons]
      omega

/-- The bucket list of a state carries exactly its five bucket counts. -/
theorem bucketsOf_counts (sd : StateCounts) :
    ((bucketsOf sd).map Bucket.count).sum = sd.bucketSum := by
  unfold bucketsOf StateCounts.bucketSum
  simp [Bucket.count]
  omega

end ClosureRisk

namespace CooperCenter

theorem cooperAnnualProb_eq_firstMatch (projected ratio : ℚ) :
    annualProb projected ratio =
      ClosureRisk.firstMatch cooperRules probLargeStable projected ratio := by
  by_cases h1 : projected < 100 <;>
    by_cases h2 : projected < 200 ∧ ratio > 0.25 <;>
      by_cases h3 : projected < 300 ∧ ratio > 0.10 <;>
        by_cases h4 : ratio > 0.10 <;>
          simp [annualProb, cooperRules, ClosureRisk.firstMatch, h1, h2, h3, h4]

theorem cooperStep_sel (ratio : ℚ) (yfb : Int) (acc : ℚ)
    (b : ClosureRisk.Bucket) :
    cooperStep ratio yfb acc b =
      acc + (b.count : ℚ) *
        (1 - (1 - annualProb (b.avgEnr * (1 - ratio)) ratio) ^ (max yfb 1).toNat) ∨
      (b.count = 0 ∧ cooperStep ratio yfb acc b = acc) := by
  unfold cooperStep
  by_cases h0 : b.count = 0
  · right
    simp [h0]
  · left
    rw [if_neg h0]

theorem computeClosures_sum (ratio : ℚ) (yfb : Int)
    (buckets : List ClosureRisk.Bucket) :
    computeClosures ratio yfb buckets =
      (buckets.map (fun b => (b.count : ℚ) *
        (1 - (1 - annualProb (b.avgEnr * (1 - ratio)) ratio) ^
          (max yfb 1).toNat))).sum := by
  unfold computeClosures
  suffices h : ∀ acc : ℚ,
      buckets.foldl (cooperStep ratio yfb) acc =
        acc + (buckets.map (fun b => (b.count : ℚ) *
          (1 - (1 - annualProb (b.avgEnr * (1 - ratio)) ratio) ^
            (max yfb 1).toNat))).sum by
    rw [h 0]
    ring
  induction buckets with
  | nil => intro acc; simp
  | cons b t ih =>
      intro acc
      rw [List.foldl_cons, ih]
      simp only [List.map_cons, List.sum_cons]
      rcases cooperStep_sel ratio yfb acc b with h | ⟨hc, h⟩
      · rw [h]
        ring
      · rw [h, hc]
        simp

end CooperCenter

namespace SchoolData

/-- Each school lands in exactly one of the four colour tiers. -/
theorem tierStep_sum (combined : ℚ) (tc : Tier) (e : ℚ) :
    (tierStep combined tc e).green + (tierStep combined tc e).yellow +
        (tierStep combined tc e).orange + (tierStep combined tc e).red =
      tc.green + tc.yellow + tc.orange + tc.red + 1 := by
  unfold tierStep
  dsimp only
  split_ifs <;> simp <;> omega

/-- The four colour-tier counters partition the school list. -/
theorem tierCounts_sum (enrollments : List ℚ) (combined : ℚ) :
    (tierCounts enrollments combined).green +
        (tierCounts enrollments combined).yellow +
        (tierCounts enrollments combined).orange +
        (tierCounts enrollments combined).red = enrollments.length := by
  unfold tierCounts
  suffices h : ∀ tc : Tier,
      (enrollments.foldl (tierStep combined) tc).green +
          (enrollments.foldl (tierStep combined) tc).yellow +
          (enrollments.foldl (tierStep combined) tc).orange +
          (enrollments.foldl (tierStep combined) tc).red =
        tc.green + tc.yellow + tc.orange + tc.red + enrollments.length by
    rw [h Tier.zero]
    simp [Tier.zero]
  induction enrollments with
  | nil => intro tc; simp
  | cons e t ih =>
      intro tc
      simp only [List.foldl_cons, List.length_cons]
      rw [ih (tierStep combined tc e), tierStep_sum]
      omega

/-- School-age row contributions commute. -/
theorem addSchoolRow_comm (r1 r2 : ProcessData.Row) (a : SchoolAgg) :
    addSchoolRow r1 (addSchoolRow r2 a) = addSchoolRow r2 (addSchoolRow r1 a) := by
  unfold addSchoolRow
  simp only [SchoolAgg.mk.injEq]
  constructor <;> ring

/-- The school-age accumulation step is right-commutative. -/
theorem schoolStep_comm (m : ProcessData.Key → SchoolAgg)
    (r1 r2 : ProcessData.Row) :
    schoolStep (schoolStep m r1) r2 = schoolStep (schoolStep m r2) r1 := by
  unfold schoolStep
  by_cases h1 : keepSchoolRow r1 <;> by_cases h2 : keepSchoolRow r2 <;>
    simp [h1, h2]
  funext k
  by_cases c2 : k = ProcessData.rowKey r2 <;>
    by_cases c1 : k = ProcessData.rowKey r1
  · simp only [if_pos c1, if_pos c2]
    exact addSchoolRow_comm r2 r1 (m k)
  · simp only [if_pos c2, if_neg c1]
  · simp only [if_pos c1, if_neg c2]
  · simp only [if_neg c1, if_neg c2]

end SchoolData

namespace ProcessData

/-- Row contributions to one accumulator commute. -/
theorem addRow_comm (r1 r2 : Row) (a : Agg) :
    addRow r1 (addRow r2 a) = addRow r2 (addRow r1 a) := by
  unfold addRow
  simp only [Agg.mk.injEq]
  refine ⟨by ring, by ring, by ring⟩

/-- The accumulation step of process_hauer is right-commutative. -/
theorem hauerStep_comm (m : Key → Agg) (r1 r2 : Row) :
    hauerStep (hauerStep m r1) r2 = hauerStep (hauerStep m r2) r1 := by
  unfold hauerStep
  by_cases h1 : keepRow r1 <;> by_cases h2 : keepRow r2 <;> simp [h1, h2]
  funext k
  by_cases c2 : k = rowKey r2 <;> by_cases c1 : k = rowKey r1
  · simp only [if_pos c1, if_pos c2]
    exact addRow_comm r2 r1 (m k)
  · simp only [if_pos c2, if_neg c1]
  · simp only [if_pos c1, if_neg c2]
  · simp only [if_neg c1, if_neg c2]

/-- max? characterisation on integer lists. -/
theorem int_max?_eq_some_iff {l : List Int} {a : Int} :
    l.max? = some a ↔ a ∈ l ∧ ∀ b ∈ l, b ≤ a := by
  haveI : Std.Antisymm ((· : Int) ≤ ·) := ⟨fun h1 h2 => Int.le_antisymm h1 h2⟩
  exact List.max?_eq_some_iff (fun x => le_refl x) (fun x y => max_choice x y)
    (fun x y z => max_le_iff)

/-- min? characterisation on integer lists. -/
theorem int_min?_eq_some_iff {l : List Int} {a : Int} :
    l.min? = some a ↔ a ∈ l ∧ ∀ b ∈ l, a ≤ b := by
  haveI : Std.Antisymm ((· : Int) ≤ ·) := ⟨fun h1 h2 => Int.le_antisymm h1 h2⟩
  exact List.min?_eq_some_iff (fun x => le_refl x) (fun x y => min_choice x y)
    (fun x y z => le_min_iff)

theorem lookupYear_eq_some {s : List (Int × ℚ)} {y : Int} {v : ℚ}
    (hn : (s.map Prod.fst).Nodup) (hm : (y, v) ∈ s) :
    lookupYear s y = some v := by
  induction s with
  | nil => cases hm
  | cons p t ih =>
      simp only [List.map_cons, List.nodup_cons] at hn
      rcases List.mem_cons.mp hm with heq | hmem
      · subst heq
        unfold lookupYear
        rw [List.find?_cons_of_pos]
        · rfl
        · simp
      · have hy : y ∈ t.map Prod.fst := List.mem_map.mpr ⟨(y, v), hmem, rfl⟩
        have hpy : ¬ p.1 = y := by
          intro h
          apply hn.1
          rw [h]
          exact hy
        unfold lookupYear
        rw [List.find?_cons_of_neg]
        · exact ih hn.2 hmem
        · simpa using hpy

theorem lookupYear_eq_none {s : List (Int × ℚ)} {y : Int}
    (h : y ∉ s.map Prod.fst) : lookupYear s y = none := by
  unfold lookupYear
  rw [List.find?_eq_none.mpr]
  · rfl
  · intro p hp
    simp only [decide_eq_true_eq]
    intro hpy
    exact h (List.mem_map.mpr ⟨p, hp, hpy⟩)

/-- A target year present in the series is returned unchanged. -/
theorem resampleBounded_known {s : List (Int × ℚ)} {target : Int} {v : ℚ}
    (hn : (s.map Prod.fst).Nodup) (hm : (target, v) ∈ s) :
    resampleBounded s target = some v := by
  unfold resampleBounded
  rw [lookupYear_eq_some hn hm]

/-- A missing target year strictly between the two nearest known years is
linearly interpolated between them. -/
theorem resampleBounded_between {s : List (Int × ℚ)} {target y1 y2 : Int}
    {v1 v2 : ℚ}
    (hn : (s.map Prod.fst).Nodup)
    (h1 : (y1, v1) ∈ s) (h2 : (y2, v2) ∈ s)
    (hy1 : y1 < target) (hy2 : target < y2)
    (hmax : ∀ y ∈ s.map Prod.fst, y ≤ target → y ≤ y1)
    (hmin : ∀ y ∈ s.map Prod.fst, target ≤ y → y2 ≤ y) :
    resampleBounded s target =
      some (v1 + ((target : ℚ) - (y1 : ℚ)) / ((y2 : ℚ) - (y1 : ℚ)) * (v2 - v1)) := by
  have hkeys1 : y1 ∈ s.map Prod.fst := List.mem_map.mpr ⟨(y1, v1), h1, rfl⟩
  have hkeys2 : y2 ∈ s.map Prod.fst := List.mem_map.mpr ⟨(y2, v2), h2, rfl⟩
  have htn : target ∉ s.map Prod.fst := by
    intro ht
    have := hmax target ht (le_refl target)
    omega
  have hbmax : ((s.map Prod.fst).filter (fun y => y ≤ target)).max? = some y1 := by
    rw [int_max?_eq_some_iff]
    constructor
    · exact List.mem_filter.mpr ⟨hkeys1, by simpa using le_of_lt hy1⟩
    · intro b hb
      rcases List.mem_filter.mp hb with ⟨hbm, hble⟩
      exact hmax b hbm (by simpa using hble)
  have hamin : ((s.map Prod.fst).filter (fun y => target ≤ y)).min? = some y2 := by
    rw [int_min?_eq_some_iff]
    constructor
    · exact List.mem_filter.mpr ⟨hkeys2, by simpa using le_of_lt hy2⟩
    · intro b hb
      rcases List.mem_filter.mp hb with ⟨hbm, hble⟩
      exact hmin b hbm (by simpa using hble)
  have hne : ¬ y1 = y2 := by omega
  unfold resampleBounded
  rw [lookupYear_eq_none htn]
  dsimp only
  rw [hbmax, hamin]
  dsimp only
  rw [if_neg hne, lookupYear_eq_some hn h1, lookupYear_eq_some hn h2]

/-- A target year below every known year is held flat at the smallest known
year's value. -/
theorem resampleBounded_below {s : List (Int × ℚ)} {target y2 : Int} {v2 : ℚ}
    (hn : (s.map Prod.fst).Nodup) (h2 : (y2, v2) ∈ s)
    (hall : ∀ y ∈ s.map Prod.fst, target < y)
    (hmin : ∀ y ∈ s.map Prod.fst, y2 ≤ y) :
    resampleBounded s target = some v2 := by
  have hkeys2 : y2 ∈ s.map Prod.fst := List.mem_map.mpr ⟨(y2, v2), h2, rfl⟩
  have htn : target ∉ s.map Prod.fst := by
    intro ht
    have := hall target ht
    omega
  have hbefore : (s.map Prod.fst).filter (fun y => y ≤ target) = [] := by
    rw [List.filter_eq_nil_iff]
    intro a ha
    simpa using not_le.mpr (hall a ha)
  have hamin : ((s.map Prod.fst).filter (fun y => target ≤ y)).min? = some y2 := by
    rw [int_min?_eq_some_iff]
    constructor
    · exact List.mem_filter.mpr ⟨hkeys2, by simpa using le_of_lt (hall y2 hkeys2)⟩
    · intro b hb
      rcases List.mem_filter.mp hb with ⟨hbm, _⟩
      exact hmin b hbm
  unfold resampleBounded
  rw [lookupYear_eq_none htn]
  dsimp only
  rw [hbefore, hamin]
  dsimp only [List.max?_nil]
  exact lookupYear_eq_some hn h2

/-- A target year above every known year is held flat at the largest known
year's value. -/
theorem resampleBounded_above {s : List (Int × ℚ)} {target y1 : Int} {v1 : ℚ}
    (hn : (s.map Prod.fst).Nodup) (h1 : (y1, v1) ∈ s)
    (hall : ∀ y ∈ s.map Prod.fst, y < target)
    (hmax : ∀ y ∈ s.map Prod.fst, y ≤ y1) :
    resampleBounded s target = some v1 := by
  have hkeys1 : y1 ∈ s.map Prod.fst := List.mem_map.mpr ⟨(y1, v1), h1, rfl⟩
  have htn : target ∉ s.map Prod.fst := by
    intro ht
    have := hall target ht
    omega
  have hafter : (s.map Prod.fst).filter (fun y => target ≤ y) = [] := by
    rw [List.filter_eq_nil_iff]
    intro a ha
    simpa using not_le.mpr (hall a ha)
  have hbmax : ((s.map Prod.fst).filter (fun y => y ≤ target)).max? = some y1 := by
    rw [int_max?_eq_some_iff]
    constructor
    · exact List.mem_filter.mpr ⟨hkeys1, by simpa using le_of_lt (hall y1 hkeys1)⟩
    · intro b hb
      rcases List.mem_filter.mp hb with ⟨hbm, _⟩
      exact hmax b hbm
  unfold resampleBounded
  rw [lookupYear_eq_none htn]
  dsimp only
  rw [hafter, hbmax]
  dsimp only [List.min?_nil]
  exact lookupYear_eq_some hn h1

/-- A single-year series resolves every target year to its one value. -/
theorem resampleBounded_single (y : Int) (v : ℚ) (target : Int) :
    resampleBounded [(y, v)] target = some v := by
  rcases lt_trichotomy target y with h | h | h
  · exact @resampleBounded_below [(y, v)] target y v (by simp) (by simp)
      (by simpa using h) (by simp)
  · subst h
    exact resampleBounded_known (by simp) (by simp)
  · exact @resampleBounded_above [(y, v)] target y v (by simp) (by simp)
      (by simpa using h) (by simp)

end ProcessData

/-- C1: the cohort-lag decline model enumerates enrolled birth years Y-17
through Y-5, counts as affected exactly the birth years strictly greater than
2022, averages the trajectory's birth-decline percentage over exactly those
affected years (0 if none), and returns enrollment_decline_pct =
(affected_grades / 13) * avg_birth_decline; target year 2025 yields
affected_grades = 0 and enrollment_decline_pct = 0, and target year 2040
yields affected_grades = 13 and pipeline_fraction = 1. -/
theorem C1_cohort_lag_decline_model :
    (∀ target y : Int,
      y ∈ ClosureRisk.enrolledBirthYears target ↔ target - 17 ≤ y ∧ y ≤ target - 5) ∧
    (∀ (traj : Int → ℚ) (target : Int),
      (ClosureRisk.computeEnrollmentDecline traj target).post2022Grades =
          ((ClosureRisk.enrolledBirthYears target).filter (fun y => 2022 < y)).length ∧
      (ClosureRisk.computeEnrollmentDecline traj target).avgBirthDecline =
          (if 0 < ((ClosureRisk.enrolledBirthYears target).filter
              (fun y => 2022 < y)).length
           then
            (((ClosureRisk.enrolledBirthYears target).filter
                (fun y => 2022 < y)).map traj).sum
              / (((ClosureRisk.enrolledBirthYears target).filter
                  (fun y => 2022 < y)).length : ℚ)
           else 0) ∧
      (ClosureRisk.computeEnrollmentDecline traj target).post2022Fraction =
          (((ClosureRisk.enrolledBirthYears target).filter
              (fun y => 2022 < y)).length : ℚ) / 13 ∧
      (ClosureRisk.computeEnrollmentDecline traj target).enrollmentDeclinePct =
          (ClosureRisk.computeEnrollmentDecline traj target).post2022Fraction *
            (ClosureRisk.computeEnrollmentDecline traj target).avgBirthDecline) ∧
    (∀ traj : Int → ℚ,
      (ClosureRisk.computeEnrollmentDecline traj 2025).post2022Grades = 0 ∧
      (ClosureRisk.computeEnrollmentDecline traj 2025).enrollmentDeclinePct = 0) ∧
    (∀ traj : Int → ℚ,
      (ClosureRisk.computeEnrollmentDecline traj 2040).post2022Grades = 13 ∧
      (ClosureRisk.computeEnrollmentDecline traj 2040).post2022Fraction = 1) := by
  refine ⟨ClosureRisk.mem_enrolledBirthYears, ?_, ?_, ?_⟩
  · intro traj target
    obtain ⟨h1, h2, h3, h4⟩ := ClosureRisk.computeEnrollmentDecline_spec traj target
    exact ⟨h1, h2, h3, h4⟩
  · intro traj
    obtain ⟨h1, _h2, h3, h4⟩ := ClosureRisk.computeEnrollmentDecline_spec traj 2025
    rw [ClosureRisk.affected_2025] at h1 h3
    refine ⟨h1, ?_⟩
    rw [h4, h3]
    norm_num
  · intro traj
    obtain ⟨h1, _h2, h3, _h4⟩ := ClosureRisk.computeEnrollmentDecline_spec traj 2040
    rw [ClosureRisk.affected_2040] at h1 h3
    refine ⟨h1, ?_⟩
    rw [h3]
    norm_num

/-- C2: per bucket, the projected representative size is
avg_enrollment * (1 - decline_ratio) and the annual closure probability is
selected by the first matching rule of the fixed ordered rule table
(projected size < 100 first, then projected size < 200 with ratio > 0.25,
then the decline-ratio thresholds, then the flat background rate), so
exactly one rule or the default applies; the cumulative probability over
the horizon is 1 - (1 - annual_prob) ^ years with years floored at 1, and
expected_closures is count * cum summed over all buckets.  Holds for both
estimate_closures and the cooper_center compute_closures. -/
theorem C2_closure_risk_scorer :
    (∀ projected ratio : ℚ,
      ClosureRisk.annualProb projected ratio =
        ClosureRisk.firstMatch ClosureRisk.closureRules
          ClosureRisk.probLargeStable projected ratio) ∧
    (∀ (ratio : ℚ) (years : ℕ) (buckets : List ClosureRisk.Bucket),
      (ClosureRisk.estimateClosures ratio years buckets).1 =
        (buckets.map (fun b => (b.count : ℚ) *
          (1 - (1 - ClosureRisk.annualProb (b.avgEnr * (1 - ratio)) ratio)
            ^ years))).sum) ∧
    (∀ target : Int,
      1 ≤ ClosureRisk.yearsFrom2025 target ∧
      (2026 ≤ target →
        (ClosureRisk.yearsFrom2025 target : Int) = target - 2025)) ∧
    (∀ projected ratio : ℚ,
      CooperCenter.annualProb projected ratio =
        ClosureRisk.firstMatch CooperCenter.cooperRules
          CooperCenter.probLargeStable projected ratio) ∧
    (∀ (ratio : ℚ) (yfb : Int) (buckets : List ClosureRisk.Bucket),
      CooperCenter.computeClosures ratio yfb buckets =
        (buckets.map (fun b => (b.count : ℚ) *
          (1 - (1 - CooperCenter.annualProb (b.avgEnr * (1 - ratio)) ratio)
            ^ (max yfb 1).toNat))).sum ∧
      1 ≤ (max yfb 1).toNat) := by
  refine ⟨ClosureRisk.annualProb_eq_firstMatch,
    ClosureRisk.estimateClosures_expected, ?_,
    CooperCenter.cooperAnnualProb_eq_firstMatch, ?_⟩
  · intro target
    unfold ClosureRisk.yearsFrom2025
    constructor
    · omega
    · intro h
      omega
  · intro ratio yfb buckets
    refine ⟨CooperCenter.computeClosures_sum ratio yfb buckets, ?_⟩
    omega

/-- Witness for C2 at target year 2030. -/
theorem C2_closure_risk_scorer_witness :
    (2026 : Int) ≤ 2030 ∧ (ClosureRisk.yearsFrom2025 2030 : Int) = 2030 - 2025 := by
  exact ⟨by norm_num, (C2_closure_risk_scorer.2.2.1 2030).2 (by norm_num)⟩

/-- C3: the composite of two independent decline ratios multiplies the
surviving fractions — combined_survival = survival_a * survival_b,
equivalently composite_ratio = 1 - (1 - ratio_a) * (1 - ratio_b); composing
0 with any ratio r yields r, and composing 1 with any ratio yields 1. -/
theorem C3_scenario_composer :
    (∀ a b : ℚ, SchoolData.compositeDecline a b = 1 - (1 - a) * (1 - b)) ∧
    (∀ sa sb : ℚ,
      1 - SchoolData.compositeDecline (1 - sa) (1 - sb) =
        SchoolData.combinedRatio sa sb) ∧
    (∀ r : ℚ, SchoolData.compositeDecline 0 r = r) ∧
    (∀ r : ℚ, SchoolData.compositeDecline 1 r = 1) := by
  refine ⟨?_, ?_, ?_, ?_⟩
  · intro a b
    unfold SchoolData.compositeDecline SchoolData.declineOfSurvival
      SchoolData.combinedRatio
    ring
  · intro sa sb
    unfold SchoolData.compositeDecline SchoolData.declineOfSurvival
      SchoolData.combinedRatio
    ring
  · intro r
    unfold SchoolData.compositeDecline SchoolData.declineOfSurvival
      SchoolData.combinedRatio
    ring
  · intro r
    unfold SchoolData.compositeDecline SchoolData.declineOfSurvival
      SchoolData.combinedRatio
    ring

/-- C4: the streaming aggregation is order independent — any permutation of
the same row multiset yields identical per-(geography, year) aggregates, for
both the total/65plus/85plus table of process_hauer and the
total/school_age table of process_hauer_school_age. -/
theorem C4_aggregator_order_independence :
    ∀ rows1 rows2 : List ProcessData.Row, List.Perm rows1 rows2 →
      ProcessData.processHauer rows1 = ProcessData.processHauer rows2 ∧
      SchoolData.processHauerSchoolAge rows1 =
        SchoolData.processHauerSchoolAge rows2 := by
  intro l1 l2 p
  constructor
  · exact p.foldl_eq' (fun x _ y _ z => ProcessData.hauerStep_comm z x y) _
  · exact p.foldl_eq' (fun x _ y _ z => SchoolData.schoolStep_comm z x y) _

/-- Witness for C4 on a concrete two-row swap. -/
theorem C4_aggregator_witness :
    List.Perm
        [(⟨2025, "01", "001", 14, 100⟩ : ProcessData.Row),
         ⟨2030, "02", "013", 18, 50⟩]
        [(⟨2030, "02", "013", 18, 50⟩ : ProcessData.Row),
         ⟨2025, "01", "001", 14, 100⟩] ∧
    ProcessData.processHauer
        [⟨2025, "01", "001", 14, 100⟩, ⟨2030, "02", "013", 18, 50⟩] =
      ProcessData.processHauer
        [⟨2030, "02", "013", 18, 50⟩, ⟨2025, "01", "001", 14, 100⟩] := by
  have hp : List.Perm
      [(⟨2025, "01", "001", 14, 100⟩ : ProcessData.Row),
       ⟨2030, "02", "013", 18, 50⟩]
      [(⟨2030, "02", "013", 18, 50⟩ : ProcessData.Row),
       ⟨2025, "01", "001", 14, 100⟩] :=
    List.Perm.swap _ _ _
  exact ⟨hp, (C4_aggregator_order_independence _ _ hp).1⟩

/-- C5: the bounded-policy resampler returns known values exactly,
interpolates linearly between the nearest known years around a missing
target (so (2025, 100) and (2030, 150) at 2027 yields 120), holds the
nearest boundary value flat outside the known range, and resolves every
target of a single-year series to that one value. -/
theorem C5_temporal_resampler :
    (∀ (s : List (Int × ℚ)) (target : Int) (v : ℚ),
      (s.map Prod.fst).Nodup → (target, v) ∈ s →
        ProcessData.resampleBounded s target = some v) ∧
    (∀ (s : List (Int × ℚ)) (target y1 y2 : Int) (v1 v2 : ℚ),
      (s.map Prod.fst).Nodup → (y1, v1) ∈ s → (y2, v2) ∈ s →
      y1 < target → target < y2 →
      (∀ y ∈ s.map Prod.fst, y ≤ target → y ≤ y1) →
      (∀ y ∈ s.map Prod.fst, target ≤ y → y2 ≤ y) →
        ProcessData.resampleBounded s target =
          some (v1 + ((target : ℚ) - (y1 : ℚ)) / ((y2 : ℚ) - (y1 : ℚ))
            * (v2 - v1))) ∧
    ProcessData.resampleBounded [(2025, 100), (2030, 150)] 2027 = some 120 ∧
    (∀ (s : List (Int × ℚ)) (target y2 : Int) (v2 : ℚ),
      (s.map Prod.fst).Nodup → (y2, v2) ∈ s →
      (∀ y ∈ s.map Prod.fst, target < y) →
      (∀ y ∈ s.map Prod.fst, y2 ≤ y) →
        ProcessData.resampleBounded s target = some v2) ∧
    (∀ (s : List (Int × ℚ)) (target y1 : Int) (v1 : ℚ),
      (s.map Prod.fst).Nodup → (y1, v1) ∈ s →
      (∀ y ∈ s.map Prod.fst, y < target) →
      (∀ y ∈ s.map Prod.fst, y ≤ y1) →
        ProcessData.resampleBounded s target = some v1) ∧
    (∀ (y target : Int) (v : ℚ),
      ProcessData.resampleBounded [(y, v)] target = some v) := by
  refine ⟨?_, ?_, ?_, ?_, ?_, ?_⟩
  · intro s target v hn hm
    exact ProcessData.resampleBounded_known hn hm
  · intro s target y1 y2 v1 v2 hn h1 h2 hy1 hy2 hmax hmin
    exact ProcessData.resampleBounded_between hn h1 h2 hy1 hy2 hmax hmin
  · have h := @ProcessData.resampleBounded_between [(2025, 100), (2030, 150)]
      2027 2025 2030 100 150 (by decide) (by decide) (by decide) (by decide)
      (by decide) (by decide) (by decide)
    rw [h]
    norm_num
  · intro s target y2 v2 hn h2 hall hmin
    exact ProcessData.resampleBounded_below hn h2 hall hmin
  · intro s target y1 v1 hn h1 hall hmax
    exact ProcessData.resampleBounded_above hn h1 hall hmax
  · intro y target v
    exact ProcessData.resampleBounded_single y v target

/-- Witness for C5 at concrete series. -/
theorem C5_temporal_resampler_witness :
    ProcessData.resampleBounded [(2022, 42)] 2022 = some 42 ∧
    ProcessData.resampleBounded [(2025, 100), (2030, 150)] 2027 = some 120 ∧
    ProcessData.resampleBounded [(2025, 100), (2030, 150)] 2020 = some 100 ∧
    ProcessData.resampleBounded [(2025, 100), (2030, 150)] 2040 = some 150 ∧
    ProcessData.resampleBounded [(2022, 42)] 2035 = some 42 := by
  refine ⟨?_, ?_, ?_, ?_, ?_⟩
  · exact C5_temporal_resampler.1 [(2022, 42)] 2022 42 (by decide) (by decide)
  · have h := C5_temporal_resampler.2.1 [(2025, 100), (2030, 150)]
      2027 2025 2030 100 150 (by decide) (by decide) (by decide)
      (by decide) (by decide) (by decide) (by decide)
    rw [h]
    norm_num
  · exact C5_temporal_resampler.2.2.2.1 [(2025, 100), (2030, 150)]
      2020 2025 100 (by decide) (by decide) (by decide) (by decide)
  · exact C5_temporal_resampler.2.2.2.2.1 [(2025, 100), (2030, 150)]
      2040 2030 150 (by decide) (by decide) (by decide) (by decide)
  · exact C5_temporal_resampler.2.2.2.2.2 2022 2035 42

/-- C6: for any school distribution and any decline ratio in [0, 1], the
four colour-tier counts of the county risk scorer sum exactly to the
county's school count — each school is assigned to exactly one tier. -/
theorem C6_risk_tier_partition :
    ∀ (enrollments : List ℚ) (d : ℚ), 0 ≤ d → d ≤ 1 →
      (SchoolData.tierCounts enrollments (1 - d)).green +
          (SchoolData.tierCounts enrollments (1 - d)).yellow +
          (SchoolData.tierCounts enrollments (1 - d)).orange +
          (SchoolData.tierCounts enrollments (1 - d)).red =
        enrollments.length := by
  intro enrollments d _ _
  exact SchoolData.tierCounts_sum enrollments (1 - d)

/-- Witness for C6 at a concrete distribution and ratio. -/
theorem C6_risk_tier_partition_witness :
    (0 : ℚ) ≤ 0.3 ∧ (0.3 : ℚ) ≤ 1 ∧
    (SchoolData.tierCounts [55, 150, 420] (1 - 0.3)).green +
        (SchoolData.tierCounts [55, 150, 420] (1 - 0.3)).yellow +
        (SchoolData.tierCounts [55, 150, 420] (1 - 0.3)).orange +
        (SchoolData.tierCounts [55, 150, 420] (1 - 0.3)).red = 3 := by
  refine ⟨by norm_num, by norm_num, ?_⟩
  exact C6_risk_tier_partition [55, 150, 420] 0.3 (by norm_num) (by norm_num)

/-- C7 as stated is false: a geography with an empty year series raises no
NoDataError and is reported nowhere.  The run's output on the empty-series
geography "01001" is empty and identical to the output of the run without
that geography, and resampling the empty series yields no value rather than
an error naming the geography — the failure is silent. -/
theorem C7_counterexample :
    ProcessData.hauerOutput [("01001", [])] = ProcessData.hauerOutput [] ∧
    ProcessData.hauerOutput [("01001", [])] = [] ∧
    ProcessData.resampleBounded [] 2025 = none := by
  refine ⟨?_, ?_, ?_⟩ <;> rfl

/-- C7 amended: a geography whose year series has zero known years produces
no value for any target year and is silently excluded from the final
output; the rest of the run is unaffected, and no error and no report of
the geography is produced. -/
theorem C7_empty_series_silent :
    (∀ target : Int, ProcessData.resampleBounded [] target = none) ∧
    (∀ (g : String) (rest : List (String × List (Int × ℚ))),
      ProcessData.hauerOutput ((g, []) :: rest) =
        ProcessData.hauerOutput rest) := by
  constructor
  · intro target
    rfl
  · intro g rest
    have he : ProcessData.hauerEntryYears [] = [] := rfl
    simp [ProcessData.hauerOutput, List.filterMap_cons, he]

/-- C8 as stated is false: a row whose YEAR field is unparseable is not
skipped and counted — the uncaught int() exception aborts the whole
aggregation, modelled by the error result, and no aggregate over the
remaining rows is produced. -/
theorem C8_counterexample :
    ProcessData.processHauerRaw
        [⟨"2025", "01", "001", "14", "100"⟩,
         ⟨"20x5", "01", "001", "14", "100"⟩,
         ⟨"2025", "01", "002", "14", "100"⟩] =
      Except.error ⟨"20x5", "01", "001", "14", "100"⟩ := by
  rfl

/-- C8 amended: malformed rows are fatal, not skipped: any row whose YEAR
field fails integer parsing aborts the entire aggregation with an error;
no per-row skipping or counting exists and no aggregate result is
produced. -/
theorem C8_malformed_rows_fatal :
    ∀ (rows : List ProcessData.RawRow) (r : ProcessData.RawRow),
      r ∈ rows → ProcessData.parseInt r.yearS = none →
        ∃ e, ProcessData.processHauerRaw rows = Except.error e := by
  intro rows r hm hy
  unfold ProcessData.processHauerRaw
  generalize (fun _ : ProcessData.Key => ProcessData.Agg.zero) = m
  induction rows generalizing m with
  | nil => cases hm
  | cons a t ih =>
      rcases List.mem_cons.mp hm with rfl | hmem
      · refine ⟨r, ?_⟩
        unfold ProcessData.runRaw ProcessData.hauerStepRaw
        rw [hy]
      · unfold ProcessData.runRaw
        cases hstep : ProcessData.hauerStepRaw m a with
        | ok m2 => exact ih hmem m2
        | error e => exact ⟨e, rfl⟩

/-- Witness for C8 at a concrete malformed row. -/
theorem C8_malformed_rows_fatal_witness :
    (⟨"20x5", "01", "001", "14", "100"⟩ : ProcessData.RawRow) ∈
        [(⟨"20x5", "01", "001", "14", "100"⟩ : ProcessData.RawRow)] ∧
    ProcessData.parseInt "20x5" = none ∧
    ∃ e, ProcessData.processHauerRaw
        [⟨"20x5", "01", "001", "14", "100"⟩] = Except.error e := by
  refine ⟨by decide, by decide, ?_⟩
  exact C8_malformed_rows_fatal [⟨"20x5", "01", "001", "14", "100"⟩]
    ⟨"20x5", "01", "001", "14", "100"⟩ (by decide) (by decide)

/-- C9: in the state-level scorer the two emitted tallies are nested
cumulative counts: 0 ≤ schools_severe_risk ≤ schools_elevated_risk ≤
current_schools, for any school list, decline ratio and horizon, because
every bucket counted as severe is also counted as elevated and each bucket
contributes to each tally at most once. -/
theorem C9_nested_risk_tallies :
    ∀ (enrollments : List ℚ) (ratio : ℚ) (years : ℕ),
      0 ≤ (ClosureRisk.estimateClosures ratio years
            (ClosureRisk.bucketsOf (ClosureRisk.ccdAggregate enrollments))).2.2 ∧
      (ClosureRisk.estimateClosures ratio years
            (ClosureRisk.bucketsOf (ClosureRisk.ccdAggregate enrollments))).2.2 ≤
        (ClosureRisk.estimateClosures ratio years
            (ClosureRisk.bucketsOf (ClosureRisk.ccdAggregate enrollments))).2.1 ∧
      (ClosureRisk.estimateClosures ratio years
            (ClosureRisk.bucketsOf (ClosureRisk.ccdAggregate enrollments))).2.1 ≤
        (ClosureRisk.ccdAggregate enrollments).totalSchools := by
  intro enrollments ratio years
  obtain ⟨h1, h2⟩ := ClosureRisk.estimateClosures_tally ratio years
    (ClosureRisk.bucketsOf (ClosureRisk.ccdAggregate enrollments))
    (0, 0, 0) (le_refl 0)
  refine ⟨Nat.zero_le _, h1, ?_⟩
  have h3 := ClosureRisk.bucketsOf_counts (ClosureRisk.ccdAggregate enrollments)
  have h4 := ClosureRisk.ccdAggregate_partition enrollments
  unfold ClosureRisk.estimateClosures
  rw [← h4, ← h3]
  simpa using h2

/-- C10: in the cooper_center scenario, a geography whose projected ratio
sa_yr / sa_2020 is at least 1 gets expected_closures = 0 and
expected_closures_pct = 0 exactly; the closure model is invoked only when
the ratio is strictly below 1, with decline ratio 1 - ratio and the horizon
floored at one year. -/
theorem C10_cooper_growth_zero :
    ∀ (saYr sa2020 : ℚ) (buckets : List ClosureRisk.Bucket)
      (totalSchools : ℕ) (yr : Int),
      (1 ≤ saYr / sa2020 →
        CooperCenter.cooperYear saYr sa2020 buckets totalSchools yr = (0, 0)) ∧
      (saYr / sa2020 < 1 →
        (CooperCenter.cooperYear saYr sa2020 buckets totalSchools yr).1 =
          CooperCenter.computeClosures (1 - saYr / sa2020)
            (max (yr - 2025) 1) buckets ∧
        1 ≤ max (yr - 2025) 1) := by
  intro saYr sa2020 buckets totalSchools yr
  constructor
  · intro h
    unfold CooperCenter.cooperYear
    dsimp only
    rw [if_pos h]
    by_cases ht : 0 < totalSchools
    · rw [if_pos ht]
      norm_num
    · rw [if_neg ht]
  · intro h
    have hn : ¬ (saYr / sa2020 ≥ 1) := not_le.mpr h
    unfold CooperCenter.cooperYear
    dsimp only
    rw [if_neg hn]
    exact ⟨rfl, le_max_right _ _⟩

/-- Witness for C10 on both sides of the ratio threshold. -/
theorem C10_cooper_growth_zero_witness :
    (1 : ℚ) ≤ 110 / 100 ∧
    CooperCenter.cooperYear 110 100 [⟨3, 55⟩] 3 2030 = (0, 0) ∧
    (90 : ℚ) / 100 < 1 ∧
    (CooperCenter.cooperYear 90 100 [⟨3, 55⟩] 3 2030).1 =
      CooperCenter.computeClosures (1 - 90 / 100) (max (2030 - 2025) 1) [⟨3, 55⟩] := by
  refine ⟨by norm_num, ?_, by norm_num, ?_⟩
  · exact (C10_cooper_growth_zero 110 100 [⟨3, 55⟩] 3 2030).1 (by norm_num)
  · exact ((C10_cooper_growth_zero 90 100 [⟨3, 55⟩] 3 2030).2 (by norm_num)).1

end AgingMap
